import Mathlib

/-
Shallow embedding of src/src/components/modal/index.ts (the Modal component):
DOM element state is modelled as explicit data (class lists, attribute maps,
attached listeners), the Modal class as a structure whose methods are pure
state transformers, and mouse events as their observed coordinates. Callback
invocation is modelled by per-slot counters on the state. JS page coordinates
and element sizes are modelled as integers.
-/

namespace Flowbite

/-- A DOM element as the modal code observes it: its class list (in insertion
order, no duplicates), its attribute map (key/value pairs, first match wins),
and the listeners currently attached to it. A listener function object is
identified by a numeric token, since each setup allocates a fresh closure. -/
structure Element where
  classes : List String
  attrs : List (String × String)
  listeners : List (String × Nat)
deriving DecidableEq, Repr

/-- DOMTokenList.add: appends the class unless already present. -/
def classListAdd (cs : List String) (c : String) : List String :=
  if c ∈ cs then cs else cs ++ [c]

/-- DOMTokenList.remove: drops every occurrence of the class. -/
def classListRemove (cs : List String) (c : String) : List String :=
  cs.filter (fun x => x ≠ c)

/-- Element.getAttribute: the value of the first pair with the given key. -/
def getAttr : List (String × String) → String → Option String
  | [], _ => none
  | p :: rest, k => if p.1 = k then some p.2 else getAttr rest k

/-- Element.setAttribute: overwrites the existing attribute, otherwise
appends a new one (an attribute key occurs at most once in the DOM). -/
def setAttr : List (String × String) → String → String → List (String × String)
  | [], k, v => [(k, v)]
  | p :: rest, k, v => if p.1 = k then (k, v) :: rest else p :: setAttr rest k v

/-- Element.removeAttribute: drops the pairs with the given key. -/
def removeAttr (as : List (String × String)) (k : String) : List (String × String) :=
  as.filter (fun p => p.1 ≠ k)

/-- addEventListener: attaching the same (type, listener) pair twice is a
no-op in the DOM. -/
def listenerAdd (ls : List (String × Nat)) (ty : String) (t : Nat) : List (String × Nat) :=
  if (ty, t) ∈ ls then ls else ls ++ [(ty, t)]

/-- removeEventListener: removes the entry matching both the event type and
the listener object; removing a pair that was never attached is a no-op. -/
def listenerRemove (ls : List (String × Nat)) (ty : String) (t : Nat) : List (String × Nat) :=
  ls.filter (fun p => p ≠ (ty, t))

def Element.addClass (el : Element) (c : String) : Element :=
  { el with classes := classListAdd el.classes c }

def Element.removeClass (el : Element) (c : String) : Element :=
  { el with classes := classListRemove el.classes c }

def Element.setAttribute (el : Element) (k v : String) : Element :=
  { el with attrs := setAttr el.attrs k v }

def Element.removeAttribute (el : Element) (k : String) : Element :=
  { el with attrs := removeAttr el.attrs k }

def Element.getAttribute (el : Element) (k : String) : Option String :=
  getAttr el.attrs k

def Element.addListener (el : Element) (ty : String) (t : Nat) : Element :=
  { el with listeners := listenerAdd el.listeners ty t }

def Element.removeListener (el : Element) (ty : String) (t : Nat) : Element :=
  { el with listeners := listenerRemove el.listeners ty t }

/-- Identity of a callback function object stored in the options. The Default
options carry no-op callbacks; a caller may supply its own. Invocation of a
slot is modelled by the per-slot counters on the Modal state. -/
inductive CallbackRef
  | noOp
  | user (n : Nat)
deriving DecidableEq, Repr

/-- The fully populated options record (ModalOptions after merging). -/
structure ModalOptions where
  placement : String
  backdropClasses : String
  backdrop : String
  closable : Bool
  onHide : CallbackRef
  onShow : CallbackRef
  onToggle : CallbackRef
deriving DecidableEq, Repr

/-- The Default options object of the source. -/
def Default : ModalOptions :=
  { placement := "center"
    backdropClasses := "bg-black bg-opacity-30 fixed inset-0 z-40"
    backdrop := "dynamic"
    closable := true
    onHide := .noOp
    onShow := .noOp
    onToggle := .noOp }

def MinResizeWidth : Int := 200
def MinResizeHeight : Int := 100

/-- An options object as passed by a caller: a JS object in which any key may
be absent (none means the key is not present in the object). -/
structure PartialModalOptions where
  placement : Option String := none
  backdropClasses : Option String := none
  backdrop : Option String := none
  closable : Option Bool := none
  onHide : Option CallbackRef := none
  onShow : Option CallbackRef := none
  onToggle : Option CallbackRef := none
deriving DecidableEq, Repr

/-- The spread merge of the constructor: keys present in the passed object
override the Default object, absent keys fall back to it. -/
def mergeOptions (o : PartialModalOptions) : ModalOptions :=
  { placement := o.placement.getD Default.placement
    backdropClasses := o.backdropClasses.getD Default.backdropClasses
    backdrop := o.backdrop.getD Default.backdrop
    closable := o.closable.getD Default.closable
    onHide := o.onHide.getD Default.onHide
    onShow := o.onShow.getD Default.onShow
    onToggle := o.onToggle.getD Default.onToggle }

/-- Modal._getPlacementClasses: the switch over this._options.placement. -/
def getPlacementClasses (placement : String) : List String :=
  if placement = "top-left" then ["justify-start", "items-start"]
  else if placement = "top-center" then ["justify-center", "items-start"]
  else if placement = "top-right" then ["justify-end", "items-start"]
  else if placement = "center-left" then ["justify-start", "items-center"]
  else if placement = "center" then ["justify-center", "items-center"]
  else if placement = "center-right" then ["justify-end", "items-center"]
  else if placement = "bottom-left" then ["justify-start", "items-end"]
  else if placement = "bottom-center" then ["justify-center", "items-end"]
  else if placement = "bottom-right" then ["justify-end", "items-end"]
  else ["justify-center", "items-center"]

/-- The fields of the Modal class. The inline styles the handlers write to
this._resizeTargetEl.style and this._dragTargetEl.style.transform are carried
here as the fields resizeTargetStyle* and dragTargetTransform; a transform of
some (x, y) stands for translate(x px, y px). Fields that are undefined in JS
until first written are initialised to 0 / none / false in the model. -/
structure Modal where
  targetEl : Element
  options : ModalOptions
  isHidden : Bool
  backdropEl : Option Element
  clickOutsideEventListener : Option Nat := none
  keydownEventListener : Option Nat := none
  modalWidthBeforeResize : Int := 0
  modalHeightBeforeResize : Int := 0
  resizeMouseDownX : Int := 0
  resizeMouseDownY : Int := 0
  resizeTargetStyleWidth : Option Int := none
  resizeTargetStyleHeight : Option Int := none
  resizeTargetStyleMaxWidth : Option String := none
  resizeMoveUpListenersAttached : Bool := false
  dragXBeforeDragging : Int := 0
  dragYBeforeDragging : Int := 0
  currentDragX : Int := 0
  currentDragY : Int := 0
  dragMouseDownX : Int := 0
  dragMouseDownY : Int := 0
  dragTargetTransform : Option (Int × Int) := none
  dragMoveUpListenersAttached : Bool := false
  onShowCount : Nat := 0
  onHideCount : Nat := 0
  onToggleCount : Nat := 0
deriving DecidableEq, Repr

/-- The Modal constructor: merges the options with Default, starts hidden with
no backdrop, zeroes the drag baseline, and runs _init, which adds the two
placement classes to the target element. The resize/drag wiring of _init only
scans child markup and installs the mousedown handlers embedded below; the
markup scan itself is not modelled (the model Element has no children). -/
def mkModal (targetEl : Element) (options : PartialModalOptions) : Modal :=
  let opts := mergeOptions options
  { targetEl := (getPlacementClasses opts.placement).foldl Element.addClass targetEl
    options := opts
    isHidden := true
    backdropEl := none }

/-- Document-level state the methods touch: the body class list, listeners on
document.body, the document elements carrying the modal-backdrop attribute in
document order, and a fresh-token source for newly created listener closures. -/
structure DocState where
  bodyClasses : List String := []
  bodyListeners : List (String × Nat) := []
  backdrops : List Element := []
  nextListenerToken : Nat := 0
deriving DecidableEq, Repr

/-- A Modal instance together with the document state it acts on. -/
structure St where
  modal : Modal
  doc : DocState
deriving DecidableEq, Repr

/-- Modal.isVisible(). -/
def isVisibleM (m : Modal) : Bool := !m.isHidden

/-- Modal.isHidden(). -/
def isHiddenM (m : Modal) : Bool := m.isHidden

/-- The backdrop element Modal._createBackdrop builds: a fresh div with the
modal-backdrop attribute and the configured backdrop classes. -/
def mkBackdropEl (backdropClasses : String) : Element :=
  let b0 : Element := { classes := [], attrs := [], listeners := [] }
  let b1 := b0.setAttribute "modal-backdrop" ""
  (backdropClasses.splitOn " ").foldl Element.addClass b1

/-- Modal._createBackdrop: when this._isHidden, creates the backdrop element,
appends it to the body, and stores the reference in this._backdropEl. -/
def createBackdrop (s : St) : St :=
  if s.modal.isHidden then
    let b2 := mkBackdropEl s.modal.options.backdropClasses
    { s with
      modal := { s.modal with backdropEl := some b2 }
      doc := { s.doc with backdrops := s.doc.backdrops ++ [b2] } }
  else s

/-- Modal._destroyBackdropEl: when the modal is not hidden, removes the first
document element carrying the modal-backdrop attribute (the result of
document.querySelector). In the source a missing element would be a null
dereference; the model removes nothing in that case. -/
def destroyBackdropEl (s : St) : St :=
  if !s.modal.isHidden then
    { s with doc := { s.doc with backdrops := s.doc.backdrops.tail } }
  else s

/-- Modal._setupModalCloseEventListeners: when backdrop is "dynamic", creates
a fresh outside-click closure and attaches it to the target element for the
mouseup event (capture); then creates a fresh keydown closure and attaches it
to document.body. -/
def setupModalCloseEventListeners (s : St) : St :=
  let s1 :=
    if s.modal.options.backdrop = "dynamic" then
      let t := s.doc.nextListenerToken
      { s with
        modal := { s.modal with
          clickOutsideEventListener := some t
          targetEl := s.modal.targetEl.addListener "mouseup" t }
        doc := { s.doc with nextListenerToken := t + 1 } }
    else s
  let t := s1.doc.nextListenerToken
  { s1 with
    modal := { s1.modal with keydownEventListener := some t }
    doc := { s1.doc with
      bodyListeners := listenerAdd s1.doc.bodyListeners "keydown" t
      nextListenerToken := t + 1 } }

/-- Modal._removeModalCloseEventListeners: when backdrop is "dynamic", calls
removeEventListener on the target element with event type "click" and the
stored outside-click listener (the source passes "click" although the listener
was registered for "mouseup"); then removes the keydown listener from
document.body. A still-unset listener field (undefined in JS) removes
nothing. -/
def removeModalCloseEventListeners (s : St) : St :=
  let s1 :=
    if s.modal.options.backdrop = "dynamic" then
      match s.modal.clickOutsideEventListener with
      | some t =>
        { s with modal := { s.modal with
            targetEl := s.modal.targetEl.removeListener "click" t } }
      | none => s
    else s
  match s1.modal.keydownEventListener with
  | some t =>
    { s1 with doc := { s1.doc with
        bodyListeners := listenerRemove s1.doc.bodyListeners "keydown" t } }
  | none => s1

/-- Modal.show(). In the source the body is guarded by if (this.isHidden);
isHidden is a method and the guard tests the function object itself without
calling it, which is always truthy, so the body runs unconditionally. -/
def showM (s : St) : St :=
  let el := s.modal.targetEl.addClass "flex"
  let el := el.removeClass "hidden"
  let el := el.setAttribute "aria-modal" "true"
  let el := el.setAttribute "role" "dialog"
  let el := el.removeAttribute "aria-hidden"
  let s1 : St := { s with modal := { s.modal with targetEl := el } }
  let s2 := createBackdrop s1
  let s3 : St := { s2 with modal := { s2.modal with isHidden := false } }
  let s4 : St := { s3 with doc := { s3.doc with
      bodyClasses := classListAdd s3.doc.bodyClasses "overflow-hidden" } }
  let s5 := if s4.modal.options.closable then setupModalCloseEventListeners s4 else s4
  { s5 with modal := { s5.modal with onShowCount := s5.modal.onShowCount + 1 } }

/-- Modal.hide(). In the source the body is guarded by if (this.isVisible);
isVisible is a method and the guard tests the function object itself without
calling it, which is always truthy, so the body runs unconditionally. -/
def hideM (s : St) : St :=
  let el := s.modal.targetEl.addClass "hidden"
  let el := el.removeClass "flex"
  let el := el.setAttribute "aria-hidden" "true"
  let el := el.removeAttribute "aria-modal"
  let el := el.removeAttribute "role"
  let s1 : St := { s with modal := { s.modal with targetEl := el } }
  let s2 := destroyBackdropEl s1
  let s3 : St := { s2 with modal := { s2.modal with isHidden := true } }
  let s4 : St := { s3 with doc := { s3.doc with
      bodyClasses := classListRemove s3.doc.bodyClasses "overflow-hidden" } }
  let s5 := if s4.modal.options.closable then removeModalCloseEventListeners s4 else s4
  { s5 with modal := { s5.modal with onHideCount := s5.modal.onHideCount + 1 } }

/-- The onToggle invocation at the end of Modal.toggle(). -/
def bumpToggle (s : St) : St :=
  { s with modal := { s.modal with onToggleCount := s.modal.onToggleCount + 1 } }

/-- Modal.toggle(): dispatches on this._isHidden (the boolean field), then
always invokes the toggle callback. -/
def toggleM (s : St) : St :=
  let s1 := if s.modal.isHidden then showM s else hideM s
  bumpToggle s1

/-- The possible identities of a mouseup event target as compared by
_handleOutsideClick: the target element itself, the element referenced by
this._backdropEl, or any other node. -/
inductive EvTarget
  | targetEl
  | backdropEl
  | other
deriving DecidableEq, Repr

/-- Modal._handleOutsideClick(target): hides when the event target is the
target element, or is the backdrop element (a reference comparison that can
only succeed once _backdropEl is set) while this.isVisible() holds. -/
def handleOutsideClick (s : St) (t : EvTarget) : St :=
  if t = EvTarget.targetEl ∨
      (t = EvTarget.backdropEl ∧ s.modal.backdropEl.isSome ∧ isVisibleM s.modal) then
    hideM s
  else s

/-- Modal.__onResizeMouseDown: records the rendered size of the resize target
(clientWidth/clientHeight) and the mouse-down page coordinates, then attaches
the document mousemove/mouseup listeners. -/
def onResizeMouseDown (m : Modal) (clientWidth clientHeight pageX pageY : Int) : Modal :=
  { m with
    modalWidthBeforeResize := clientWidth
    modalHeightBeforeResize := clientHeight
    resizeMouseDownX := pageX
    resizeMouseDownY := pageY
    resizeMoveUpListenersAttached := true }

/-- Modal.__onResizeMouseMove: adds the pointer delta to the recorded size,
clamps each dimension at its minimum, and writes the result as inline style. -/
def onResizeMouseMove (m : Modal) (pageX pageY : Int) : Modal :=
  let deltaX := pageX - m.resizeMouseDownX
  let deltaY := pageY - m.resizeMouseDownY
  let newWidth := max MinResizeWidth (m.modalWidthBeforeResize + deltaX)
  let newHeight := max MinResizeHeight (m.modalHeightBeforeResize + deltaY)
  { m with
    resizeTargetStyleWidth := some newWidth
    resizeTargetStyleHeight := some newHeight
    resizeTargetStyleMaxWidth := some "100%" }

/-- Modal.__onResizeMouseUp: detaches the document mousemove/mouseup
listeners. -/
def onResizeMouseUp (m : Modal) : Modal :=
  { m with resizeMoveUpListenersAttached := false }

/-- Modal.__onDragMouseDown: ignored when the event originated on an anchor or
button descendant (eventTargetEl.closest matched); otherwise records the
mouse-down page coordinates and attaches the document move/up listeners. -/
def onDragMouseDown (m : Modal) (targetInsideAnchorOrButton : Bool) (pageX pageY : Int) : Modal :=
  if targetInsideAnchorOrButton then m
  else
    { m with
      dragMouseDownX := pageX
      dragMouseDownY := pageY
      dragMoveUpListenersAttached := true }

/-- Modal.__onDragMouseMove: adds the pointer delta from the mouse-down point
to the baseline recorded before the gesture and applies it as a translation. -/
def onDragMouseMove (m : Modal) (pageX pageY : Int) : Modal :=
  let deltaX := pageX - m.dragMouseDownX
  let deltaY := pageY - m.dragMouseDownY
  let newX := m.dragXBeforeDragging + deltaX
  let newY := m.dragYBeforeDragging + deltaY
  { m with
    currentDragX := newX
    currentDragY := newY
    dragTargetTransform := some (newX, newY) }

/-- Modal.__onDragMouseUp: the translation reached becomes the baseline for
the next gesture; the document move/up listeners are detached. -/
def onDragMouseUp (m : Modal) : Modal :=
  { m with
    dragXBeforeDragging := m.currentDragX
    dragYBeforeDragging := m.currentDragY
    dragMoveUpListenersAttached := false }

/-- An entry of the modalInstances list built by initModals. -/
structure ModalInstance where
  id : String
  object : Modal
deriving DecidableEq, Repr

/-- getModalInstance(id, instances): when some entry has the id, returns the
first such entry (Array.prototype.find), otherwise null. -/
def getModalInstance (id : String) (instances : List ModalInstance) : Option ModalInstance :=
  if instances.any (fun mi => mi.id = id) then
    instances.find? (fun mi => mi.id = id)
  else
    none

/-- The markup initModals scans: the attribute values of the four kinds of
trigger elements in document order, and document.getElementById. -/
structure DocMarkup where
  targetTriggers : List String
  toggleTriggers : List String
  showTriggers : List String
  hideTriggers : List String
  elementById : String → Option Element

/-- The ternary placement/backdrop reads of initModals: a missing attribute
(null) or an empty attribute value (falsy in JS) falls back to the default. -/
def attrOr (el : Element) (k dflt : String) : String :=
  match el.getAttribute k with
  | some v => if v = "" then dflt else v
  | none => dflt

/-- The options object literal initModals passes to the Modal constructor: it
contains exactly the placement and backdrop keys, read from attributes on the
target element. -/
def optionsFromElement (el : Element) : PartialModalOptions :=
  { placement := some (attrOr el "data-modal-placement" Default.placement)
    backdrop := some (attrOr el "data-modal-backdrop" Default.backdrop) }

/-- One iteration of the data-modal-target pass of initModals: when the id
resolves to an element and no instance with this id is registered yet, a new
Modal is created and pushed; otherwise (already registered, or unresolved id
reported via console.error) the list is unchanged. -/
def processTargetTrigger (doc : DocMarkup) (instances : List ModalInstance)
    (modalId : String) : List ModalInstance :=
  match doc.elementById modalId with
  | some el =>
    if (getModalInstance modalId instances).isSome then instances
    else instances ++ [{ id := modalId, object := mkModal el (optionsFromElement el) }]
  | none => instances

/-- One iteration of the data-modal-toggle pass of initModals: an existing
instance with this id is reused, otherwise a new Modal is created and pushed;
the click handler bound to the trigger is not part of the instances list. An
unresolved id is reported via console.error and skipped. -/
def processToggleTrigger (doc : DocMarkup) (instances : List ModalInstance)
    (modalId : String) : List ModalInstance :=
  match doc.elementById modalId with
  | some el =>
    if (getModalInstance modalId instances).isSome then instances
    else instances ++ [{ id := modalId, object := mkModal el (optionsFromElement el) }]
  | none => instances

/-- initModals: builds the modalInstances list from the data-modal-target and
data-modal-toggle passes; the data-modal-show and data-modal-hide passes only
bind click handlers (or report errors) and push no instances. -/
def initModals (doc : DocMarkup) : List ModalInstance :=
  let instances := doc.targetTriggers.foldl (processTargetTrigger doc) []
  let instances := doc.toggleTriggers.foldl (processToggleTrigger doc) instances
  instances

/-! Concrete states used by the evaluation and witness theorems. -/

/-- A canonical hidden-modal target element: the hidden class, the matching
aria-hidden attribute, no listeners. -/
def elEx : Element :=
  { classes := ["hidden"], attrs := [("aria-hidden", "true")], listeners := [] }

/-- A modal built from elEx with an empty options object, on a fresh
document. -/
def exSt : St :=
  { modal := mkModal elEx {}, doc := {} }

/-- A target element with no aria-hidden attribute and no hidden class. -/
def elExBare : Element :=
  { classes := [], attrs := [], listeners := [] }

/-- A pre-existing backdrop element of some other modal. -/
def bdEx : Element :=
  { classes := [], attrs := [("modal-backdrop", "")], listeners := [] }

/-- A modal built from elExBare on a document already holding a foreign
backdrop element. -/
def stBare : St :=
  { modal := mkModal elExBare {}, doc := { backdrops := [bdEx] } }

/-- A modal state in mid-gesture: one drag gesture from (0, 0) to (5, 7) has
been performed and not yet released. -/
def dragEx : Modal :=
  onDragMouseMove (onDragMouseDown (mkModal elEx {}) false 0 0) 5 7

/-- Example markup with duplicate trigger references to the same ids. -/
def docEx : DocMarkup :=
  { targetTriggers := ["m1", "m1", "m2"]
    toggleTriggers := ["m1", "m3", "m3", "missing"]
    showTriggers := ["m1"]
    hideTriggers := ["m2"]
    elementById := fun id =>
      if id = "m1" ∨ id = "m2" ∨ id = "m3" then some elExBare else none }

/-! Helper lemmas shared by the claim theorems. -/

lemma mem_classListAdd (x c : String) (cs : List String) :
    x ∈ classListAdd cs c ↔ x ∈ cs ∨ x = c := by
  unfold classListAdd
  split
  · next h =>
    constructor
    · exact fun hx => Or.inl hx
    · rintro (hx | rfl)
      · exact hx
      · exact h
  · simp

lemma mem_classListRemove (x c : String) (cs : List String) :
    x ∈ classListRemove cs c ↔ x ∈ cs ∧ x ≠ c := by
  simp [classListRemove]

lemma self_mem_classListAdd (c : String) (cs : List String) :
    c ∈ classListAdd cs c := by
  simp [mem_classListAdd]

lemma getAttr_setAttr (as : List (String × String)) (k v k' : String) :
    getAttr (setAttr as k v) k' = if k' = k then some v else getAttr as k' := by
  induction as with
  | nil =>
    by_cases hk' : k' = k <;> simp [getAttr, setAttr, hk']
    intro h; exact absurd h.symm hk'
  | cons p rest ih =>
    by_cases hk : p.1 = k
    · have h1 : setAttr (p :: rest) k v = (k, v) :: rest := by simp [setAttr, hk]
      by_cases hk' : k' = k
      · simp [h1, getAttr, hk']
      · have hpk' : ¬p.1 = k' := by intro h; rw [hk] at h; exact hk' h.symm
        have hkk' : ¬k = k' := fun h => hk' h.symm
        simp [h1, getAttr, hk', hkk', hpk']
    · have h1 : setAttr (p :: rest) k v = p :: setAttr rest k v := by simp [setAttr, hk]
      by_cases hpk' : p.1 = k'
      · have hk' : ¬k' = k := by intro h; rw [h] at hpk'; exact hk hpk'
        simp [h1, getAttr, hpk', hk']
      · simp [h1, getAttr, hpk', ih]

lemma getAttr_removeAttr (as : List (String × String)) (k k' : String) :
    getAttr (removeAttr as k) k' = if k' = k then none else getAttr as k' := by
  induction as with
  | nil => simp [getAttr, removeAttr]
  | cons p rest ih =>
    by_cases hk : p.1 = k
    · have h1 : removeAttr (p :: rest) k = removeAttr rest k := by
        simp [removeAttr, hk]
      by_cases hk' : k' = k
      · rw [h1, ih]; simp [hk']
      · have hpk' : ¬p.1 = k' := by intro h; rw [hk] at h; exact hk' h.symm
        simp [h1, ih, getAttr, hk', hpk']
    · have h1 : removeAttr (p :: rest) k = p :: removeAttr rest k := by
        simp [removeAttr, hk]
      by_cases hpk' : p.1 = k'
      · have hk' : ¬k' = k := by intro h; rw [h] at hpk'; exact hk hpk'
        simp [h1, getAttr, hpk', hk']
      · simp [h1, getAttr, hpk', ih]

lemma setup_targetEl_classes (s : St) :
    (setupModalCloseEventListeners s).modal.targetEl.classes = s.modal.targetEl.classes := by
  simp only [setupModalCloseEventListeners]
  repeat' split
  all_goals rfl

lemma setup_targetEl_attrs (s : St) :
    (setupModalCloseEventListeners s).modal.targetEl.attrs = s.modal.targetEl.attrs := by
  simp only [setupModalCloseEventListeners]
  repeat' split
  all_goals rfl

lemma setup_isHidden (s : St) :
    (setupModalCloseEventListeners s).modal.isHidden = s.modal.isHidden := by
  simp only [setupModalCloseEventListeners]
  repeat' split
  all_goals rfl

lemma setup_backdrops (s : St) :
    (setupModalCloseEventListeners s).doc.backdrops = s.doc.backdrops := by
  simp only [setupModalCloseEventListeners]
  repeat' split
  all_goals rfl

lemma setup_options (s : St) :
    (setupModalCloseEventListeners s).modal.options = s.modal.options := by
  simp only [setupModalCloseEventListeners]
  repeat' split
  all_goals rfl

lemma setup_onToggleCount (s : St) :
    (setupModalCloseEventListeners s).modal.onToggleCount = s.modal.onToggleCount := by
  simp only [setupModalCloseEventListeners]
  repeat' split
  all_goals rfl

lemma remove_targetEl_classes (s : St) :
    (removeModalCloseEventListeners s).modal.targetEl.classes = s.modal.targetEl.classes := by
  simp only [removeModalCloseEventListeners]
  repeat' split
  all_goals rfl

lemma remove_targetEl_attrs (s : St) :
    (removeModalCloseEventListeners s).modal.targetEl.attrs = s.modal.targetEl.attrs := by
  simp only [removeModalCloseEventListeners]
  repeat' split
  all_goals rfl

lemma remove_isHidden (s : St) :
    (removeModalCloseEventListeners s).modal.isHidden = s.modal.isHidden := by
  simp only [removeModalCloseEventListeners]
  repeat' split
  all_goals rfl

lemma remove_backdrops (s : St) :
    (removeModalCloseEventListeners s).doc.backdrops = s.doc.backdrops := by
  simp only [removeModalCloseEventListeners]
  repeat' split
  all_goals rfl

lemma remove_onToggleCount (s : St) :
    (removeModalCloseEventListeners s).modal.onToggleCount = s.modal.onToggleCount := by
  simp only [removeModalCloseEventListeners]
  repeat' split
  all_goals rfl

lemma createBackdrop_targetEl (s : St) :
    (createBackdrop s).modal.targetEl = s.modal.targetEl := by
  simp only [createBackdrop]
  split
  all_goals rfl

lemma createBackdrop_isHidden (s : St) :
    (createBackdrop s).modal.isHidden = s.modal.isHidden := by
  simp only [createBackdrop]
  split
  all_goals rfl

lemma createBackdrop_options (s : St) :
    (createBackdrop s).modal.options = s.modal.options := by
  simp only [createBackdrop]
  split
  all_goals rfl

lemma createBackdrop_onToggleCount (s : St) :
    (createBackdrop s).modal.onToggleCount = s.modal.onToggleCount := by
  simp only [createBackdrop]
  split
  all_goals rfl

lemma createBackdrop_backdrops_of_hidden (s : St) (h : s.modal.isHidden = true) :
    (createBackdrop s).doc.backdrops =
      s.doc.backdrops ++ [mkBackdropEl s.modal.options.backdropClasses] := by
  simp only [createBackdrop, h]
  rfl

lemma destroyBackdropEl_modal (s : St) :
    (destroyBackdropEl s).modal = s.modal := by
  simp only [destroyBackdropEl]
  split
  all_goals rfl

lemma destroyBackdropEl_backdrops_of_visible (s : St) (h : s.modal.isHidden = false) :
    (destroyBackdropEl s).doc.backdrops = s.doc.backdrops.tail := by
  simp only [destroyBackdropEl, h]
  rfl

/-- What Modal.show() does to the class list of the target element. -/
lemma showM_classes (s : St) :
    (showM s).modal.targetEl.classes =
      classListRemove (classListAdd s.modal.targetEl.classes "flex") "hidden" := by
  simp only [showM]
  split
  · rw [setup_targetEl_classes]
    simp [createBackdrop_targetEl, Element.addClass, Element.removeClass,
      Element.setAttribute, Element.removeAttribute]
  · simp [createBackdrop_targetEl, Element.addClass, Element.removeClass,
      Element.setAttribute, Element.removeAttribute]

/-- What Modal.show() does to the attributes of the target element. -/
lemma showM_attrs (s : St) :
    (showM s).modal.targetEl.attrs =
      removeAttr (setAttr (setAttr s.modal.targetEl.attrs "aria-modal" "true")
        "role" "dialog") "aria-hidden" := by
  simp only [showM]
  split
  · rw [setup_targetEl_attrs]
    simp [createBackdrop_targetEl, Element.addClass, Element.removeClass,
      Element.setAttribute, Element.removeAttribute]
  · simp [createBackdrop_targetEl, Element.addClass, Element.removeClass,
      Element.setAttribute, Element.removeAttribute]

lemma showM_isHidden (s : St) : (showM s).modal.isHidden = false := by
  simp only [showM]
  split
  · rw [setup_isHidden]
  · rfl

lemma showM_options (s : St) : (showM s).modal.options = s.modal.options := by
  simp only [showM]
  split
  · rw [setup_options]
    simp [createBackdrop_options]
  · simp [createBackdrop_options]

lemma showM_onToggleCount (s : St) :
    (showM s).modal.onToggleCount = s.modal.onToggleCount := by
  simp only [showM]
  split
  · rw [setup_onToggleCount]
    simp [createBackdrop_onToggleCount]
  · simp [createBackdrop_onToggleCount]

lemma showM_backdrops_of_hidden (s : St) (h : s.modal.isHidden = true) :
    (showM s).doc.backdrops =
      s.doc.backdrops ++ [mkBackdropEl s.modal.options.backdropClasses] := by
  simp only [showM]
  split
  · rw [setup_backdrops]
    simp [h, createBackdrop_backdrops_of_hidden]
  · simp [h, createBackdrop_backdrops_of_hidden]

/-- What Modal.hide() does to the class list of the target element. -/
lemma hideM_classes (s : St) :
    (hideM s).modal.targetEl.classes =
      classListRemove (classListAdd s.modal.targetEl.classes "hidden") "flex" := by
  simp only [hideM]
  split
  · rw [remove_targetEl_classes]
    simp [destroyBackdropEl_modal, Element.addClass, Element.removeClass,
      Element.setAttribute, Element.removeAttribute]
  · simp [destroyBackdropEl_modal, Element.addClass, Element.removeClass,
      Element.setAttribute, Element.removeAttribute]

/-- What Modal.hide() does to the attributes of the target element. -/
lemma hideM_attrs (s : St) :
    (hideM s).modal.targetEl.attrs =
      removeAttr (removeAttr (setAttr s.modal.targetEl.attrs "aria-hidden" "true")
        "aria-modal") "role" := by
  simp only [hideM]
  split
  · rw [remove_targetEl_attrs]
    simp [destroyBackdropEl_modal, Element.addClass, Element.removeClass,
      Element.setAttribute, Element.removeAttribute]
  · simp [destroyBackdropEl_modal, Element.addClass, Element.removeClass,
      Element.setAttribute, Element.removeAttribute]

lemma hideM_isHidden (s : St) : (hideM s).modal.isHidden = true := by
  simp only [hideM]
  split
  · rw [remove_isHidden]
  · rfl

lemma hideM_onToggleCount (s : St) :
    (hideM s).modal.onToggleCount = s.modal.onToggleCount := by
  simp only [hideM]
  split
  · rw [remove_onToggleCount]
    simp [destroyBackdropEl_modal]
  · simp [destroyBackdropEl_modal]

lemma hideM_backdrops_of_visible (s : St) (h : s.modal.isHidden = false) :
    (hideM s).doc.backdrops = s.doc.backdrops.tail := by
  simp only [hideM]
  split
  · rw [remove_backdrops]
    simp [h, destroyBackdropEl_backdrops_of_visible]
  · simp [h, destroyBackdropEl_backdrops_of_visible]

lemma mem_foldl_addClass_of_mem (l : List String) (el : Element) (c : String)
    (h : c ∈ el.classes) : c ∈ (l.foldl Element.addClass el).classes := by
  induction l generalizing el with
  | nil => exact h
  | cons d rest ih =>
    exact ih _ (by simp [Element.addClass, mem_classListAdd, h])

lemma mem_foldl_addClass (l : List String) (el : Element) (c : String) (h : c ∈ l) :
    c ∈ (l.foldl Element.addClass el).classes := by
  induction l generalizing el with
  | nil => cases h
  | cons d rest ih =>
    rcases List.mem_cons.mp h with rfl | hm
    · simp only [List.foldl_cons]
      exact mem_foldl_addClass_of_mem rest (el.addClass c) c (self_mem_classListAdd c el.classes)
    · exact ih _ hm

lemma getModalInstance_eq_find (id : String) (l : List ModalInstance) :
    getModalInstance id l = l.find? (fun mi => mi.id = id) := by
  unfold getModalInstance
  split
  · rfl
  · next h =>
    symm
    rw [List.find?_eq_none]
    intro x hx
    simp only [List.any_eq_true, decide_eq_true_eq, not_exists, not_and] at h
    simpa using h x hx

lemma nodup_push (l : List ModalInstance) (mi : ModalInstance)
    (hn : (l.map (fun x => x.id)).Nodup)
    (h : getModalInstance mi.id l = none) :
    ((l ++ [mi]).map (fun x => x.id)).Nodup := by
  rw [getModalInstance_eq_find, List.find?_eq_none] at h
  rw [List.map_append]
  refine List.Nodup.append hn (List.nodup_singleton _) ?_
  intro a ha hb
  simp only [List.map_cons, List.map_nil, List.mem_singleton] at hb
  obtain ⟨x, hx, rfl⟩ := List.mem_map.mp ha
  have hxx := h x hx
  simp only [decide_eq_true_eq] at hxx
  exact hxx hb

lemma processTargetTrigger_nodup (doc : DocMarkup) (l : List ModalInstance) (id : String)
    (hn : (l.map (fun x => x.id)).Nodup) :
    ((processTargetTrigger doc l id).map (fun x => x.id)).Nodup := by
  unfold processTargetTrigger
  split
  · split
    · exact hn
    · next hnone =>
      refine nodup_push _ _ hn ?_
      simpa [Option.isSome_iff_ne_none] using hnone
  · exact hn

lemma processToggleTrigger_nodup (doc : DocMarkup) (l : List ModalInstance) (id : String)
    (hn : (l.map (fun x => x.id)).Nodup) :
    ((processToggleTrigger doc l id).map (fun x => x.id)).Nodup := by
  unfold processToggleTrigger
  split
  · split
    · exact hn
    · next hnone =>
      refine nodup_push _ _ hn ?_
      simpa [Option.isSome_iff_ne_none] using hnone
  · exact hn

lemma foldl_processTargetTrigger_nodup (doc : DocMarkup) (ids : List String) :
    ∀ acc : List ModalInstance, (acc.map (fun x => x.id)).Nodup →
      ((ids.foldl (processTargetTrigger doc) acc).map (fun x => x.id)).Nodup := by
  induction ids with
  | nil => exact fun acc h => h
  | cons i rest ih =>
    exact fun acc h => ih _ (processTargetTrigger_nodup doc acc i h)

lemma foldl_processToggleTrigger_nodup (doc : DocMarkup) (ids : List String) :
    ∀ acc : List ModalInstance, (acc.map (fun x => x.id)).Nodup →
      ((ids.foldl (processToggleTrigger doc) acc).map (fun x => x.id)).Nodup := by
  induction ids with
  | nil => exact fun acc h => h
  | cons i rest ih =>
    exact fun acc h => ih _ (processToggleTrigger_nodup doc acc i h)

/-- The nine accepted placement values. -/
def ninePlacements : List String :=
  ["top-left", "top-center", "top-right", "center-left", "center",
   "center-right", "bottom-left", "bottom-center", "bottom-right"]

/-- The nine documented two-class pairs. -/
def placementClassPairs : List (List String) :=
  [["justify-start", "items-start"], ["justify-center", "items-start"],
   ["justify-end", "items-start"], ["justify-start", "items-center"],
   ["justify-center", "items-center"], ["justify-end", "items-center"],
   ["justify-start", "items-end"], ["justify-center", "items-end"],
   ["justify-end", "items-end"]]

/-! The claim theorems. -/

/-- C1: the claim states that calling show() while the modal is already
visible is a no-op that does not invoke onShow, and that hide() while hidden
is a no-op that does not invoke onHide. The code contradicts this: the guards
read if (this.isHidden) and if (this.isVisible), testing the truthiness of the
method reference itself rather than calling it, so they always pass. Evaluated
at a concrete instance: a second show() on a visible modal invokes onShow a
second time, and hide() on a hidden modal invokes onHide. -/
theorem c1_redundant_calls_invoke_callbacks :
    exSt.modal.isHidden = true ∧
    (showM exSt).modal.isHidden = false ∧
    (showM exSt).modal.onShowCount = 1 ∧
    (showM (showM exSt)).modal.onShowCount = 2 ∧
    exSt.modal.onHideCount = 0 ∧
    (hideM exSt).modal.onHideCount = 1 :=
  ⟨rfl, rfl, rfl, rfl, rfl, rfl⟩

/-- C2: the claim states that every listener registered during show() is
removed during the matching hide(). The code contradicts this: the
outside-click listener is registered on the target element for the mouseup
event, but _removeModalCloseEventListeners calls removeEventListener with
event type click, which does not match, so the mouseup listener stays
attached after hide() returns (the keydown listener on the body is removed
correctly). Evaluated at a concrete instance with the default options
(backdrop dynamic, closable true). -/
theorem c2_mouseup_listener_not_removed :
    (showM exSt).modal.targetEl.listeners = [("mouseup", 0)] ∧
    (showM exSt).doc.bodyListeners = [("keydown", 1)] ∧
    (hideM (showM exSt)).modal.targetEl.listeners = [("mouseup", 0)] ∧
    (hideM (showM exSt)).doc.bodyListeners = [] :=
  ⟨rfl, rfl, rfl, rfl⟩

/-- C3 (counterexample): for a hidden modal whose target element carries no
aria-hidden attribute and no hidden class, and on a document already holding
a backdrop element of another modal, show() immediately followed by hide()
does not restore the attributes (aria-hidden="true" appears), does not
restore the class list (the hidden class appears), and leaves a backdrop
element in the document (hide removes the first backdrop in the document,
which is the foreign one). -/
theorem c3_counterexample :
    stBare.modal.isHidden = true ∧
    getAttr stBare.modal.targetEl.attrs "aria-hidden" = none ∧
    getAttr (hideM (showM stBare)).modal.targetEl.attrs "aria-hidden" = some "true" ∧
    "hidden" ∉ stBare.modal.targetEl.classes ∧
    "hidden" ∈ (hideM (showM stBare)).modal.targetEl.classes ∧
    stBare.doc.backdrops.length = 1 ∧
    (hideM (showM stBare)).doc.backdrops ≠ [] := by
  refine ⟨rfl, rfl, rfl, by decide, by decide, rfl, by decide⟩

/-- C3 (amended): for a hidden modal whose target element already carries the
hidden class and not the flex class, has aria-hidden="true" and no aria-modal
and no role attribute, and on a document holding no backdrop element, show()
immediately followed by hide() restores the set of classes and every
attribute of the target element to their pre-show values and leaves no
element carrying the modal-backdrop attribute in the document. -/
theorem c3_show_hide_restores (s : St)
    (hHidden : s.modal.isHidden = true)
    (hcls : "hidden" ∈ s.modal.targetEl.classes)
    (hflex : "flex" ∉ s.modal.targetEl.classes)
    (hah : getAttr s.modal.targetEl.attrs "aria-hidden" = some "true")
    (ham : getAttr s.modal.targetEl.attrs "aria-modal" = none)
    (hrole : getAttr s.modal.targetEl.attrs "role" = none)
    (hbd : s.doc.backdrops = []) :
    (∀ c, c ∈ (hideM (showM s)).modal.targetEl.classes ↔ c ∈ s.modal.targetEl.classes) ∧
    (∀ k, getAttr (hideM (showM s)).modal.targetEl.attrs k = getAttr s.modal.targetEl.attrs k) ∧
    (hideM (showM s)).doc.backdrops = [] := by
  refine ⟨?_, ?_, ?_⟩
  · intro c
    rw [hideM_classes, showM_classes]
    simp only [mem_classListRemove, mem_classListAdd]
    by_cases h1 : c = "hidden" <;> by_cases h2 : c = "flex" <;> simp_all
  · intro k
    rw [hideM_attrs, showM_attrs]
    simp only [getAttr_removeAttr, getAttr_setAttr]
    by_cases hr : k = "role" <;> by_cases hm : k = "aria-modal" <;>
      by_cases hh : k = "aria-hidden" <;> simp_all
  · rw [hideM_backdrops_of_visible _ (showM_isHidden s),
      showM_backdrops_of_hidden _ hHidden, hbd]
    rfl

/-- C3 witness: the amended theorem applied to the concrete canonical state
exSt, instantiated at the touched class and attribute keys. -/
theorem c3_witness :
    ("hidden" ∈ (hideM (showM exSt)).modal.targetEl.classes ↔
      "hidden" ∈ exSt.modal.targetEl.classes) ∧
    getAttr (hideM (showM exSt)).modal.targetEl.attrs "aria-hidden" =
      getAttr exSt.modal.targetEl.attrs "aria-hidden" ∧
    (hideM (showM exSt)).doc.backdrops = [] :=
  have h := c3_show_hide_restores exSt rfl (by decide) (by decide) rfl rfl rfl rfl
  ⟨h.1 "hidden", h.2.1 "aria-hidden", h.2.2⟩

/-- C4: toggle() dispatches to show() when the modal is hidden and to hide()
otherwise, and invokes the onToggle callback exactly once per call in either
direction; show() and hide() themselves never invoke onToggle. -/
theorem c4_toggle_dispatch (s : St) :
    (toggleM s).modal.onToggleCount = s.modal.onToggleCount + 1 ∧
    (showM s).modal.onToggleCount = s.modal.onToggleCount ∧
    (hideM s).modal.onToggleCount = s.modal.onToggleCount ∧
    (s.modal.isHidden = true → toggleM s = bumpToggle (showM s)) ∧
    (s.modal.isHidden = false → toggleM s = bumpToggle (hideM s)) := by
  refine ⟨?_, showM_onToggleCount s, hideM_onToggleCount s, ?_, ?_⟩
  · simp only [toggleM, bumpToggle]
    split
    · simp [showM_onToggleCount]
    · simp [hideM_onToggleCount]
  · intro h
    simp [toggleM, h]
  · intro h
    simp [toggleM, h]

/-- C4 witness: the theorem applied to the concrete hidden state exSt. -/
theorem c4_witness :
    toggleM exSt = bumpToggle (showM exSt) ∧
    (toggleM exSt).modal.onToggleCount = exSt.modal.onToggleCount + 1 :=
  ⟨(c4_toggle_dispatch exSt).2.2.2.1 rfl, (c4_toggle_dispatch exSt).1⟩

/-- C5: an option left unset in the passed object falls back to its default
(placement center, backdrop dynamic, closable true, the default
backdropClasses and the no-op callbacks), and an option explicitly set
overrides the default; the constructor stores exactly this merge. -/
theorem c5_option_defaults (o : PartialModalOptions) :
    (o.placement = none → (mergeOptions o).placement = "center") ∧
    (o.backdrop = none → (mergeOptions o).backdrop = "dynamic") ∧
    (o.closable = none → (mergeOptions o).closable = true) ∧
    (o.backdropClasses = none →
      (mergeOptions o).backdropClasses = "bg-black bg-opacity-30 fixed inset-0 z-40") ∧
    (o.onShow = none → (mergeOptions o).onShow = CallbackRef.noOp) ∧
    (o.onHide = none → (mergeOptions o).onHide = CallbackRef.noOp) ∧
    (o.onToggle = none → (mergeOptions o).onToggle = CallbackRef.noOp) ∧
    (∀ v, o.placement = some v → (mergeOptions o).placement = v) ∧
    (∀ v, o.backdrop = some v → (mergeOptions o).backdrop = v) ∧
    (∀ b, o.closable = some b → (mergeOptions o).closable = b) ∧
    (∀ v, o.backdropClasses = some v → (mergeOptions o).backdropClasses = v) ∧
    (∀ el, (mkModal el o).options = mergeOptions o) := by
  refine ⟨fun h => ?_, fun h => ?_, fun h => ?_, fun h => ?_, fun h => ?_, fun h => ?_,
    fun h => ?_, fun v h => ?_, fun v h => ?_, fun b h => ?_, fun v h => ?_, fun el => rfl⟩
  all_goals simp [mergeOptions, Default, h]

/-- C5 witness: the empty options object gets the defaults; a set placement
overrides it. -/
theorem c5_witness :
    (mergeOptions {}).placement = "center" ∧
    (mergeOptions {}).closable = true ∧
    (mergeOptions { placement := some "top-left" }).placement = "top-left" :=
  ⟨(c5_option_defaults {}).1 rfl,
   (c5_option_defaults {}).2.2.1 rfl,
   (c5_option_defaults { placement := some "top-left" }).2.2.2.2.2.2.2.1 "top-left" rfl⟩

/-- C6: a resize gesture starting at rendered size (w, h) and mouse-down
position (px, py), with the pointer moved by (dx, dy), writes inline width
max(200, w + dx) and inline height max(100, h + dy) on the resize target,
each dimension clamped independently. -/
theorem c6_resize_clamps (m : Modal) (w h px py dx dy : Int) :
    (onResizeMouseMove (onResizeMouseDown m w h px py) (px + dx) (py + dy)).resizeTargetStyleWidth
        = some (max 200 (w + dx)) ∧
    (onResizeMouseMove (onResizeMouseDown m w h px py) (px + dx) (py + dy)).resizeTargetStyleHeight
        = some (max 100 (h + dy)) := by
  have hx : px + dx - px = dx := by ring
  have hy : py + dy - py = dy := by ring
  constructor <;>
    simp [onResizeMouseDown, onResizeMouseMove, MinResizeWidth, MinResizeHeight, hx, hy]

/-- C7: when a drag gesture ends with the target translated to (x1, y1),
mouse-up makes that position the baseline, and a second gesture with pointer
delta (dx2, dy2) translates the target to (x1 + dx2, y1 + dy2): translation
accumulates across gestures. -/
theorem c7_drag_accumulates (m : Modal) (x1 y1 a2 b2 dx2 dy2 : Int)
    (hx : m.currentDragX = x1) (hy : m.currentDragY = y1) :
    (onDragMouseUp m).dragXBeforeDragging = x1 ∧
    (onDragMouseUp m).dragYBeforeDragging = y1 ∧
    (onDragMouseMove (onDragMouseDown (onDragMouseUp m) false a2 b2)
        (a2 + dx2) (b2 + dy2)).dragTargetTransform = some (x1 + dx2, y1 + dy2) ∧
    (onDragMouseMove (onDragMouseDown (onDragMouseUp m) false a2 b2)
        (a2 + dx2) (b2 + dy2)).currentDragX = x1 + dx2 ∧
    (onDragMouseMove (onDragMouseDown (onDragMouseUp m) false a2 b2)
        (a2 + dx2) (b2 + dy2)).currentDragY = y1 + dy2 := by
  have ha : a2 + dx2 - a2 = dx2 := by ring
  have hb : b2 + dy2 - b2 = dy2 := by ring
  refine ⟨?_, ?_, ?_, ?_, ?_⟩ <;>
    simp [onDragMouseUp, onDragMouseDown, onDragMouseMove, hx, hy, ha, hb]

/-- C7 witness: the theorem applied to a concrete state in which a first
gesture ended at (5, 7), released, then dragged by (3, 4) from (10, 20). -/
theorem c7_witness :
    (onDragMouseMove (onDragMouseDown (onDragMouseUp dragEx) false 10 20)
        (10 + 3) (20 + 4)).dragTargetTransform = some (5 + 3, 7 + 4) :=
  (c7_drag_accumulates dragEx 5 7 10 20 3 4 (by decide) (by decide)).2.2.1

/-- C8: for a visible modal with backdrop "dynamic" and closable true, a
mouseup whose target is the target element or the backdrop element hides the
modal, while a mouseup on any other descendant leaves the state unchanged. -/
theorem c8_outside_mouseup (s : St)
    (hvis : s.modal.isHidden = false)
    (hdyn : s.modal.options.backdrop = "dynamic")
    (hcl : s.modal.options.closable = true)
    (hbd : s.modal.backdropEl.isSome = true) :
    (handleOutsideClick s EvTarget.targetEl).modal.isHidden = true ∧
    (handleOutsideClick s EvTarget.backdropEl).modal.isHidden = true ∧
    handleOutsideClick s EvTarget.other = s := by
  refine ⟨?_, ?_, ?_⟩
  · simp [handleOutsideClick, hideM_isHidden]
  · simp [handleOutsideClick, isVisibleM, hvis, hbd, hideM_isHidden]
  · simp [handleOutsideClick]

/-- C8 witness: the theorem applied to the concrete shown state. -/
theorem c8_witness :
    (handleOutsideClick (showM exSt) EvTarget.targetEl).modal.isHidden = true ∧
    handleOutsideClick (showM exSt) EvTarget.other = showM exSt :=
  have h := c8_outside_mouseup (showM exSt) rfl rfl rfl rfl
  ⟨h.1, h.2.2⟩

/-- C9: _getPlacementClasses always returns a two-class list, always one of
the nine documented pairs; any placement value outside the nine compass
positions yields the center pair; and the constructor adds both returned
placement classes to the target element. -/
theorem c9_placement_classes :
    (∀ p, (getPlacementClasses p).length = 2) ∧
    (∀ p, getPlacementClasses p ∈ placementClassPairs) ∧
    (∀ p, p ∉ ninePlacements → getPlacementClasses p = ["justify-center", "items-center"]) ∧
    (∀ el o c, c ∈ getPlacementClasses (mergeOptions o).placement →
      c ∈ (mkModal el o).targetEl.classes) := by
  refine ⟨?_, ?_, ?_, ?_⟩
  · intro p
    unfold getPlacementClasses
    split_ifs <;> rfl
  · intro p
    unfold getPlacementClasses placementClassPairs
    split_ifs <;> simp
  · intro p hp
    simp only [ninePlacements, List.mem_cons, List.not_mem_nil, or_false, not_or] at hp
    obtain ⟨h1, h2, h3, h4, h5, h6, h7, h8, h9⟩ := hp
    unfold getPlacementClasses
    simp [h1, h2, h3, h4, h5, h6, h7, h8, h9]
  · intro el o c hc
    simp only [mkModal]
    exact mem_foldl_addClass _ _ _ hc

/-- C9 witness: an unrecognised placement value falls back to the center
pair, and the constructor adds it to the element. -/
theorem c9_witness :
    getPlacementClasses "sideways" = ["justify-center", "items-center"] ∧
    "items-center" ∈ (mkModal elEx {}).targetEl.classes :=
  ⟨c9_placement_classes.2.2.1 "sideways" (by decide),
   c9_placement_classes.2.2.2 elEx {} "items-center" (by decide)⟩

/-- C10: getModalInstance returns the first entry whose id matches (null when
none does); a trigger whose id is already registered leaves the instances
list unchanged (the existing Modal is reused); and the list initModals builds
never contains two entries with the same id. -/
theorem c10_instance_registry :
    (∀ id (l : List ModalInstance), getModalInstance id l = l.find? (fun mi => mi.id = id)) ∧
    (∀ id (l : List ModalInstance), (∀ mi ∈ l, mi.id ≠ id) → getModalInstance id l = none) ∧
    (∀ doc l id, (getModalInstance id l).isSome = true →
      processTargetTrigger doc l id = l ∧ processToggleTrigger doc l id = l) ∧
    (∀ doc, ((initModals doc).map (fun mi => mi.id)).Nodup) := by
  refine ⟨getModalInstance_eq_find, ?_, ?_, ?_⟩
  · intro id l h
    rw [getModalInstance_eq_find, List.find?_eq_none]
    intro x hx
    simpa using h x hx
  · intro doc l id h
    refine ⟨?_, ?_⟩
    · unfold processTargetTrigger
      split <;> simp [h]
    · unfold processToggleTrigger
      split <;> simp [h]
  · intro doc
    unfold initModals
    exact foldl_processToggleTrigger_nodup doc _ _
      (foldl_processTargetTrigger_nodup doc _ _ (by simp))

/-- C10 witness: getModalInstance on an empty list is null, and the instances
list built from the example markup (with duplicate trigger references) has
pairwise distinct ids. -/
theorem c10_witness :
    getModalInstance "absent" [] = none ∧
    ((initModals docEx).map (fun mi => mi.id)).Nodup :=
  ⟨c10_instance_registry.2.1 "absent" [] (by simp),
   c10_instance_registry.2.2.2 docEx⟩

end Flowbite
